import Mathlib

set_option maxRecDepth 100000
set_option exponentiation.threshold 4000

/-!
Shallow embedding of `src/scraper.py` (Malt Analytics Scraper).

The pure text normalizers (`clean_appearances`, `clean_rank`), the row
extractor (`scrape_keyword_data`), the incremental revealer
(`expand_keyword_table`), the sheet publisher (`sync_to_google_sheets`)
and the orchestrator (`main`) are translated to total Lean functions.

Modelling conventions:
* Python strings are Lean `String`s; `str.strip`, `str.lower`,
  `str.replace(c, "")` and `c in s` are modelled on the character list
  (`pyStrip`, `pyLower`, `removeAll`, `containsChar`).
* Python `float(...)` / `int(...)` are modelled faithfully on their ASCII
  fragment: `pyFloat` parses the full decimal-literal grammar (optional
  surrounding whitespace and sign, digits with underscores, optional
  fraction, optional scientific exponent) and rounds the exact decimal
  value to the nearest IEEE-754 binary64 value (round to nearest, ties
  to even, subnormals and overflow-to-infinity included), carried
  exactly as `M * 2 ^ k`; the multiplication by 1000 re-rounds
  (`mul1000Round`) and `int()` truncates toward zero (`truncF64`).
  `parsePyInt` likewise strips whitespace and accepts sign and
  underscored digit groups.  Unicode-only digits and Unicode-only
  whitespace are outside the modelled fragment; `inf`/`nan` spellings
  and non-finite results are collapsed with parse failure because the
  source's surrounding `int(...)` raises on them and the `except`
  returns 0 either way.
* The Playwright page is abstracted to the data the code reads from it:
  for the revealer, the outcome of each probe/click iteration
  (`ProbeOutcome`); for the extractor, the list of located rows, each
  row either raising during extraction (`none`) or yielding the list of
  its spans' text contents (`some texts`).
* Exceptions are modelled by `Except`/`Option` values; `try/except`
  blocks become matches on those values.
-/

/-- Python whitespace for `str.strip` (ASCII fragment). -/
def pyWs (c : Char) : Bool := c.isWhitespace || c = '\x0b' || c = '\x0c'

/-- Drop whitespace from both ends of a character list. -/
def trimChars (l : List Char) : List Char :=
  ((l.dropWhile pyWs).reverse.dropWhile pyWs).reverse

/-- Python `text.strip()`. -/
def pyStrip (s : String) : String := ⟨trimChars s.data⟩

/-- Python `text.lower()` (ASCII fragment). -/
def pyLower (s : String) : String := ⟨s.data.map Char.toLower⟩

/-- Python `text.replace(c, "")`: remove every occurrence of `c`. -/
def removeAll (s : String) (c : Char) : String := ⟨s.data.filter (fun x => x ≠ c)⟩

/-- Python `c in text`. -/
def containsChar (s : String) (c : Char) : Bool := s.data.contains c

/-- Value of a digit string, most significant first. -/
def digitsToNat (l : List Char) : Nat := l.foldl (fun a c => a * 10 + (c.toNat - 48)) 0

/-- Tail of a Python digit group with underscores, given the previous
character: every underscore must be preceded and followed by a digit, and
the group must end with a digit. -/
def validGroupAux : Char → List Char → Bool
  | prev, [] => prev.isDigit
  | prev, c :: rest =>
    if c = '_' then prev.isDigit && validGroupAux c rest
    else if c.isDigit then validGroupAux c rest
    else false

/-- A valid Python digit group: digits with underscores strictly between
digits, as accepted inside `int()` and `float()` literals. -/
def validDigitGroup : List Char → Bool
  | [] => false
  | c :: rest => c.isDigit && validGroupAux c rest

/-- Remove the underscores of a digit group. -/
def stripUnderscores (l : List Char) : List Char := l.filter (fun c => c ≠ '_')

/-- Round `n / d` (with `d > 0`) to the nearest integer, ties to even. -/
def roundNearestEven (n d : Nat) : Nat :=
  let q := n / d
  let r := n % d
  if 2 * r < d then q
  else if d < 2 * r then q + 1
  else if q % 2 = 0 then q else q + 1

/-- Fuel-bounded base-2 logarithm (structural recursion). -/
def log2Fuel : Nat → Nat → Nat
  | 0, _ => 0
  | fuel + 1, n => if 2 ≤ n then log2Fuel fuel (n / 2) + 1 else 0

/-- Floor of the base-2 logarithm of `n` (for `n ≥ 1`); `n` itself is ample
fuel since the recursion depth is at most `log2 n + 1 ≤ n`. -/
def natLog2 (n : Nat) : Nat := log2Fuel n n

/-- Decide `2 ^ e ≤ n / d` by cross-multiplication. -/
def pow2LE (e : Int) (n d : Nat) : Bool :=
  if 0 ≤ e then 2 ^ e.toNat * d ≤ n else d ≤ n * 2 ^ (-e).toNat

/-- The exponent `e` with `2 ^ e ≤ n / d < 2 ^ (e + 1)`, for `n, d ≥ 1`:
`natLog2 n - natLog2 d` is within one of it, so testing the three candidates
from above finds it. -/
def floorLog2 (n d : Nat) : Int :=
  let e0 : Int := (natLog2 n : Int) - (natLog2 d : Int)
  if pow2LE (e0 + 1) n d then e0 + 1
  else if pow2LE e0 n d then e0
  else e0 - 1

/-- Round the non-negative rational `n / d` (with `d > 0`) to the nearest
IEEE-754 binary64 value: round to nearest, ties to even, subnormal quantum
`2 ^ (-1074)` below `2 ^ (-1022)`, and `none` for overflow to infinity
(rounded magnitude at least `2 ^ 1024`). `some (M, k)` denotes the exact
value `M * 2 ^ k`. -/
def roundFloatRat (n d : Nat) : Option (Nat × Int) :=
  if n = 0 then some (0, 0)
  else
    let e := floorLog2 n d
    let k : Int := if e < -1022 then -1074 else e - 52
    let num := if 0 ≤ k then n else n * 2 ^ (-k).toNat
    let den := if 0 ≤ k then d * 2 ^ k.toNat else d
    let M := roundNearestEven num den
    if 2 ^ 2098 ≤ M * 2 ^ (k + 1074).toNat then none else some (M, k)

/-- Parse what may follow the mantissa of a Python float literal: nothing, or
`e`/`E` with an optional sign and a digit group (underscores allowed). -/
def parseExpPart (l : List Char) : Option Int :=
  match l with
  | [] => some 0
  | c :: rest =>
    if c = 'e' ∨ c = 'E' then
      match rest with
      | [] => none
      | s :: t =>
        if s = '+' then
          (if validDigitGroup t then some ((digitsToNat (stripUnderscores t) : Int)) else none)
        else if s = '-' then
          (if validDigitGroup t then some (-(digitsToNat (stripUnderscores t) : Int)) else none)
        else
          (if validDigitGroup (s :: t) then
            some ((digitsToNat (stripUnderscores (s :: t)) : Int)) else none)
    else none

/-- Parse the unsigned body of a Python `float()` literal:
`digits [ "." digits ] [exponent]` (at least one mantissa digit, underscores
between digits, scientific notation included). `none` is a malformed
literal; `some none` a value of at least `10 ^ 310`, which rounds to
infinity; `some (some (m, p))` the exact decimal value `m / 10 ^ p` (values
below `10 ^ (-340)` are collapsed to 0 up front — binary64 rounds them to 0
anyway). -/
def parseFloatBody (l : List Char) : Option (Option (Nat × Nat)) :=
  let mant := l.takeWhile (fun c => ¬(c = 'e' ∨ c = 'E'))
  let erest := l.dropWhile (fun c => ¬(c = 'e' ∨ c = 'E'))
  match parseExpPart erest with
  | none => none
  | some expo =>
    let ip := mant.takeWhile (fun c => c ≠ '.')
    let rest2 := mant.dropWhile (fun c => c ≠ '.')
    let fp := rest2.drop 1
    if rest2 ≠ [] ∧ fp.contains '.' = true then none
    else if ¬(ip = [] ∨ validDigitGroup ip = true) then none
    else if rest2 ≠ [] ∧ ¬(fp = [] ∨ validDigitGroup fp = true) then none
    else if ip = [] ∧ fp = [] then none
    else
      let di := stripUnderscores ip
      let df := stripUnderscores fp
      let m0 := digitsToNat (di ++ df)
      let p0 := df.length
      if m0 = 0 then some (some (0, 0))
      else if (310 : Int) ≤ expo - (p0 : Int) then some none
      else if expo + (di.length : Int) + (df.length : Int) - (p0 : Int) ≤ -340 then
        some (some (0, 0))
      else
        let shift : Int := (p0 : Int) - expo
        if shift ≤ 0 then some (some (m0 * 10 ^ (-shift).toNat, 0))
        else some (some (m0, shift.toNat))

/-- Parse a full Python `float()` literal: strip surrounding whitespace,
optional sign, body. Returns the sign and the classified magnitude. -/
def parsePyFloatLit (s : String) : Option (Bool × Option (Nat × Nat)) :=
  match trimChars s.data with
  | [] => none
  | c :: rest =>
    if c = '+' then (parseFloatBody rest).map (fun v => (false, v))
    else if c = '-' then (parseFloatBody rest).map (fun v => (true, v))
    else (parseFloatBody (c :: rest)).map (fun v => (false, v))

/-- Python `float(s)` restricted to finite results, as the exact binary64
value `(neg, M, k)` denoting `(-1) ^ neg * M * 2 ^ k`.  `none` covers a
`ValueError` (malformed literal; also the `inf`/`nan` spellings, which are
not decimal literals of this fragment) and overflow to infinity — in every
such case the source's surrounding `int(...)` raises and the `except`
returns 0. -/
def pyFloat (s : String) : Option (Bool × Nat × Int) :=
  match parsePyFloatLit s with
  | none => none
  | some (_, none) => none
  | some (neg, some (m, p)) =>
    match roundFloatRat m (10 ^ p) with
    | none => none
    | some (M, k) => some (neg, M, k)

/-- Binary64 multiplication of the finite double `M * 2 ^ k` by 1000, with
IEEE re-rounding (`none` = overflow to infinity); the sign is unaffected
because IEEE rounding is symmetric. -/
def mul1000Round (M : Nat) (k : Int) : Option (Nat × Int) :=
  if 0 ≤ k then roundFloatRat (M * 1000 * 2 ^ k.toNat) 1
  else roundFloatRat (M * 1000) (2 ^ (-k).toNat)

/-- Python `int(x)` on the finite double `(-1) ^ neg * M * 2 ^ k`:
truncation toward zero. -/
def truncF64 (neg : Bool) (M : Nat) (k : Int) : Int :=
  let mag : Nat := if 0 ≤ k then M * 2 ^ k.toNat else M / 2 ^ (-k).toNat
  if neg then -(mag : Int) else (mag : Int)

/-- Python `int(text)`: strip whitespace, optional sign, digit group with
underscores (ASCII fragment). -/
def parsePyInt (s : String) : Option Int :=
  match trimChars s.data with
  | [] => none
  | c :: rest =>
    if c = '+' then
      (if validDigitGroup rest then some ((digitsToNat (stripUnderscores rest) : Int)) else none)
    else if c = '-' then
      (if validDigitGroup rest then some (-(digitsToNat (stripUnderscores rest) : Int)) else none)
    else
      (if validDigitGroup (c :: rest) then
        some ((digitsToNat (stripUnderscores (c :: rest)) : Int)) else none)

/-- Truncation toward zero of the exact decimal `m / 10 ^ e`. This is the
CLAIM-side semantics — the truncated integer value of the decimal number a
text denotes — kept to state the original C2 sentence, which the code's
binary64 arithmetic falsifies. -/
def truncScaled (m : Int) (e : Nat) : Int := m.tdiv ((10 : Int) ^ e)

/-- Embedding of `clean_appearances` from `src/scraper.py`: strip and
lower-case; if the text contains `'k'`, remove every `'k'`, parse as a
Python float, multiply by 1000 with binary64 rounding and truncate;
otherwise parse as a Python float and truncate; any failure yields 0. -/
def clean_appearances (text : String) : Int :=
  let t := pyLower (pyStrip text)
  if containsChar t 'k' then
    match pyFloat (removeAll t 'k') with
    | some (neg, M, k) =>
      match mul1000Round M k with
      | some (M2, k2) => truncF64 neg M2 k2
      | none => 0
    | none => 0
  else
    match pyFloat t with
    | some (neg, M, k) => truncF64 neg M k
    | none => 0

/-- Embedding of `clean_rank` from `src/scraper.py`: strip, remove every `'#'`
(`text.replace('#', '')`), parse as an integer; any failure yields 0. -/
def clean_rank (text : String) : Int :=
  match parsePyInt (removeAll (pyStrip text) '#') with
  | some n => n
  | none => 0

/-- Rank normalizer as worded by the spec: strip, remove one LEADING `'#'`
only, parse as an integer; any failure yields 0. Used to compare the spec's
wording with `clean_rank` (which removes every `'#'`). -/
def clean_rank_leading (text : String) : Int :=
  let t := pyStrip text
  let t2 : String :=
    match t.data with
    | [] => ⟨[]⟩
    | c :: rest => if c = '#' then ⟨rest⟩ else ⟨c :: rest⟩
  match parsePyInt t2 with
  | some n => n
  | none => 0

-- sanity anchors for the normalizers
example : clean_appearances "5" = 5 := by decide
example : clean_appearances "12.0" = 12 := by decide
example : clean_appearances "1.2k" = 1200 := by decide
example : clean_appearances "n/a" = 0 := by decide
example : clean_appearances " 1.2K " = 1200 := by decide
example : clean_rank "#1" = 1 := by decide
example : clean_rank "42" = 42 := by decide
example : clean_rank "#" = 0 := by decide
example : clean_rank "" = 0 := by decide
example : clean_rank "##1" = 1 := by decide
example : clean_rank_leading "##1" = 0 := by decide
example : clean_rank "-3" = -3 := by decide
example : clean_appearances "2.9999999999999999" = 3 := by decide
example : clean_appearances "8.165k" = 8164 := by decide
example : clean_appearances "1e3" = 1000 := by decide
example : clean_appearances "2.675k" = 2675 := by decide
example : clean_appearances "k -3k" = -3000 := by decide
example : clean_appearances "1_0.5" = 10 := by decide
example : clean_appearances "-0.5" = 0 := by decide
example : clean_rank "# -3" = -3 := by decide
example : clean_rank "1_0" = 10 := by decide

/-- A keyword record as assembled by `scrape_keyword_data`
(`{"keyword": ..., "appearances": ..., "rank": ...}`). -/
structure KeywordRecord where
  keyword : String
  appearances : Int
  rank : Int
deriving DecidableEq, Repr

/-- One iteration of the loop body of `scrape_keyword_data`: given the text
contents of the row's spans, either skip the row (`none`: fewer than 3 spans,
or empty keyword after stripping) or build its record. -/
def processRow (spans : List String) : Option KeywordRecord :=
  if spans.length < 3 then none
  else
    match spans with
    | k :: a :: r :: _ =>
      let keyword := pyStrip k
      if keyword = "" then none
      else some ⟨keyword, clean_appearances (pyStrip a), clean_rank (pyStrip r)⟩
    | _ => none

/-- Embedding of `scrape_keyword_data` from `src/scraper.py`. A located row is `none` when
the page abstraction raises while extracting it (the `except` branch of the
per-row `try`: the row is skipped) and `some texts` otherwise. -/
def scrape_keyword_data (rows : List (Option (List String))) : List KeywordRecord :=
  rows.filterMap (fun row => row.bind processRow)

/-- Outcome of one iteration of the `expand_keyword_table` loop, as observed
through the page abstraction: the reveal control is not visible; the click and
wait succeed; an exception is raised before the click (locator/visibility) or
after it (click/wait). -/
inductive ProbeOutcome
  | notVisible
  | clickOk
  | raiseAtProbe
  | raiseAfterClick
deriving DecidableEq, Repr

/-- The `while expansion_count < max_attempts` loop of `expand_keyword_table`.
`fuel` is `max_attempts - count`; the result is `(expansion_count, clicks)`
where `clicks` counts the `.click()` activations actually performed. -/
def expandAux (b : Nat → ProbeOutcome) : Nat → Nat → Nat → Nat × Nat
  | 0, count, clicks => (count, clicks)
  | fuel + 1, count, clicks =>
    match b count with
    | .notVisible => (count, clicks)
    | .raiseAtProbe => (count, clicks)
    | .raiseAfterClick => (count, clicks + 1)
    | .clickOk => expandAux b fuel (count + 1) (clicks + 1)

/-- The constant `max_attempts = 100` of `expand_keyword_table` ("Prevent infinite loops"). -/
def max_attempts : Nat := 100

/-- Embedding of `expand_keyword_table` from `src/scraper.py`, over a page behaviour `b`
giving the outcome of iteration `n` (the iteration probing after `n`
successful expansions). Returns the pair (returned `expansion_count`, number
of activations performed). -/
def expand_keyword_table (b : Nat → ProbeOutcome) : Nat × Nat :=
  expandAux b max_attempts 0 0

/-- A spreadsheet cell value, as placed in the append payload. -/
inductive Cell
  | str (s : String)
  | int (n : Int)
deriving DecidableEq, Repr

/-- The `SHEET_NAME` constant from `src/scraper.py`. -/
def SHEET_NAME : String := "Raw_Data"

/-- Behaviour of the publisher's collaborators in one run: the outcome of
`load_google_credentials` (which re-raises on failure), of the sheet-metadata
fetch (list of sheet titles), and of the batch-append call (updated row
count). `Except.error` models a raised exception. -/
structure SheetsEnv where
  credentials : Except Unit Unit
  metadata : Except Unit (List String)
  appendResult : Except Unit Nat

/-- Observable result of one `sync_to_google_sheets` call: the returned
boolean plus which collaborator calls were attempted and the row payload
handed to the batch append (when reached). -/
structure SyncResult where
  success : Bool
  credentialLoad : Bool
  metadataFetch : Bool
  appendCall : Bool
  rowsSent : Option (List (List Cell))
deriving DecidableEq, Repr

/-- The row built for one record: `[today, keyword, appearances, rank]`. -/
def buildRow (today : String) (item : KeywordRecord) : List Cell :=
  [Cell.str today, Cell.str item.keyword, Cell.int item.appearances, Cell.int item.rank]

/-- Body of `sync_to_google_sheets` inside the outer `try`: guard clauses,
credential load (whose exception propagates to the outer handler), the
metadata `try/except`, the `SHEET_NAME` check, row building, and the append
`try/except`. -/
def syncBody (spreadsheetId today : String) (env : SheetsEnv)
    (keywords_data : List KeywordRecord) : Except Unit SyncResult :=
  if spreadsheetId = "" then .ok ⟨false, false, false, false, none⟩
  else if keywords_data = [] then .ok ⟨false, false, false, false, none⟩
  else
    match env.credentials with
    | .error e => .error e
    | .ok _ =>
      match env.metadata with
      | .error _ => .ok ⟨false, true, true, false, none⟩
      | .ok sheet_names =>
        if SHEET_NAME ∈ sheet_names then
          let rows := keywords_data.map (buildRow today)
          match env.appendResult with
          | .error _ => .ok ⟨false, true, true, true, some rows⟩
          | .ok _ => .ok ⟨true, true, true, true, some rows⟩
        else .ok ⟨false, true, true, false, none⟩

/-- Embedding of `sync_to_google_sheets` from `src/scraper.py`: the outer `try/except`
around `syncBody` catches any propagated exception and returns `False`. -/
def sync_to_google_sheets (spreadsheetId today : String) (env : SheetsEnv)
    (keywords_data : List KeywordRecord) : SyncResult :=
  match syncBody spreadsheetId today env keywords_data with
  | .ok r => r
  | .error _ => ⟨false, true, false, false, none⟩

/-- Embedding of `main` from `src/scraper.py`, abstracted over the browser phase: `browser`
is `.error` when the Playwright block raises (navigation/selector timeout,
launch failure) and `.ok (expansionCount, rows)` with the post-expansion page
rows otherwise. Returns the process exit status. -/
def mainRun (browser : Except Unit (Nat × List (Option (List String))))
    (spreadsheetId today : String) (env : SheetsEnv) : Nat :=
  match browser with
  | .error _ => 1
  | .ok (_, rows) =>
    let keywords_data := scrape_keyword_data rows
    if (sync_to_google_sheets spreadsheetId today env keywords_data).success then 0 else 1

-- sanity anchors for the extractor and revealer
example :
    scrape_keyword_data [some ["Python", "1.2k", "#3"], some ["Java", "47", "12"]] =
      [⟨"Python", 1200, 3⟩, ⟨"Java", 47, 12⟩] := by decide
example : scrape_keyword_data [some ["x", "1"]] = [] := by decide
example : scrape_keyword_data [some ["  ", "1", "2", "3"]] = [] := by decide
example : scrape_keyword_data [none, some ["a", "5", "#3"]] = [⟨"a", 5, 3⟩] := by decide
example :
    expand_keyword_table (fun n => if n < 3 then .clickOk else .notVisible) = (3, 3) := by decide
example : expand_keyword_table (fun _ => .notVisible) = (0, 0) := by decide
example : expand_keyword_table (fun _ => .clickOk) = (100, 100) := by decide
example :
    expand_keyword_table (fun n => if n < 2 then .clickOk else .raiseAfterClick) = (2, 3) := by decide

/-! ## Lemmas about the revealer loop -/

lemma expandAux_count_le (b : Nat → ProbeOutcome) :
    ∀ fuel count clicks, (expandAux b fuel count clicks).1 ≤ count + fuel := by
  intro fuel
  induction fuel with
  | zero => intro count clicks; simp [expandAux]
  | succ f ih =>
    intro count clicks
    rw [expandAux]
    cases hb : b count
    · exact Nat.le_add_right count (f + 1)
    · exact le_trans (ih (count + 1) (clicks + 1)) (by omega)
    · exact Nat.le_add_right count (f + 1)
    · exact Nat.le_add_right count (f + 1)

lemma expandAux_run (b : Nat → ProbeOutcome) :
    ∀ (k fuel count clicks : Nat),
      k ≤ fuel →
      (∀ i, i < k → b (count + i) = .clickOk) →
      (b (count + k) ≠ .clickOk ∨ fuel = k) →
      (expandAux b fuel count clicks).1 = count + k := by
  intro k
  induction k with
  | zero =>
    intro fuel count clicks hkf hrun hstop
    cases fuel with
    | zero => simp [expandAux]
    | succ f =>
      rcases hstop with hne | hfe
      · rw [expandAux]
        simp only [Nat.add_zero] at hne
        cases hb : b count
        · simp
        · exact absurd hb hne
        · simp
        · simp
      · exact absurd hfe (by omega)
  | succ n ih =>
    intro fuel count clicks hkf hrun hstop
    cases fuel with
    | zero => exact absurd hkf (by omega)
    | succ f =>
      have hb0 : b count = .clickOk := by simpa using hrun 0 (by omega)
      rw [expandAux, hb0]
      have hrun' : ∀ i, i < n → b (count + 1 + i) = .clickOk := by
        intro i hi
        have := hrun (i + 1) (by omega)
        simpa [Nat.add_assoc, Nat.add_comm 1 i] using this
      have hstop' : b (count + 1 + n) ≠ .clickOk ∨ f = n := by
        rcases hstop with hne | hfe
        · left; simpa [Nat.add_assoc, Nat.add_comm 1 n] using hne
        · right; omega
      exact (ih f (count + 1) (clicks + 1) (by omega) hrun' hstop').trans (by omega)

/-- C1: for every page behaviour, `expand_keyword_table` (a total function,
hence terminating) returns an expansion count of at most the safety cap 100;
if the reveal control is never visible it returns 0 having performed no
activation; and if the control accepts a click for exactly the first `N`
iterations (`N` below the cap) and is then no longer visible, it returns
exactly `N`. -/
theorem C1_reveal_cap_and_exact_count (b : Nat → ProbeOutcome) :
    (expand_keyword_table b).1 ≤ 100 ∧
    ((∀ n, b n = .notVisible) → expand_keyword_table b = (0, 0)) ∧
    (∀ N, N < 100 → (∀ n, n < N → b n = .clickOk) → b N = .notVisible →
      (expand_keyword_table b).1 = N) := by
  refine ⟨?_, ?_, ?_⟩
  · have h := expandAux_count_le b 100 0 0
    simpa [expand_keyword_table, max_attempts] using h
  · intro h
    show expandAux b 100 0 0 = (0, 0)
    rw [show (100 : Nat) = 99 + 1 from rfl, expandAux, h 0]
  · intro N hN hrun hstop
    have h := expandAux_run b N 100 0 0 (by omega)
      (by intro i hi; simpa using hrun i hi)
      (Or.inl (by simp [hstop]))
    simpa [expand_keyword_table, max_attempts] using h

/-- Witness for C1 at the behaviour "clickable for 3 iterations, then the
control disappears". -/
theorem C1_reveal_cap_and_exact_count_witness :
    (expand_keyword_table (fun n => if n < 3 then .clickOk else .notVisible)).1 = 3 :=
  (C1_reveal_cap_and_exact_count (fun n => if n < 3 then .clickOk else .notVisible)).2.2 3
    (by decide) (by decide) (by decide)

/-- C6: transient page-interaction exceptions are recovered locally. A row on
which the page abstraction raises (`none`) is skipped and extraction continues
with the surrounding rows; and if the reveal loop has performed `N` successful
expansions when a probe or click raises, `expand_keyword_table` returns `N`
rather than propagating. -/
theorem C6_transient_errors_recovered :
    (∀ (pre post : List (Option (List String))),
      scrape_keyword_data (pre ++ none :: post) =
        scrape_keyword_data pre ++ scrape_keyword_data post) ∧
    (∀ (b : Nat → ProbeOutcome) (N : Nat), N ≤ 100 →
      (∀ n, n < N → b n = .clickOk) →
      (b N = .raiseAtProbe ∨ b N = .raiseAfterClick) →
      (expand_keyword_table b).1 = N) := by
  constructor
  · intro pre post
    simp [scrape_keyword_data, List.filterMap_append]
  · intro b N hN hrun hstop
    have h := expandAux_run b N 100 0 0 (by simpa [max_attempts] using hN)
      (by intro i hi; simpa using hrun i hi)
      (Or.inl (by
        simp only [Nat.zero_add]
        rcases hstop with h1 | h1 <;> · rw [h1]; intro hc; cases hc))
    simpa [expand_keyword_table, max_attempts] using h

/-- Witness for C6: a raise after 2 expansions returns 2; a raising row in the
middle is skipped. -/
theorem C6_transient_errors_recovered_witness :
    (expand_keyword_table (fun n => if n < 2 then .clickOk else .raiseAfterClick)).1 = 2 :=
  C6_transient_errors_recovered.2 (fun n => if n < 2 then .clickOk else .raiseAfterClick) 2
    (by decide) (by decide) (Or.inr (by decide))

/-! ## Lemmas about the extractor -/

lemma processRow_short (spans : List String) (h : spans.length < 3) :
    processRow spans = none := by
  unfold processRow
  simp [h]

lemma processRow_inv (spans : List String) (rec : KeywordRecord)
    (h : processRow spans = some rec) :
    ∃ k a r rest, spans = k :: a :: r :: rest ∧ pyStrip k ≠ "" ∧
      rec = ⟨pyStrip k, clean_appearances (pyStrip a), clean_rank (pyStrip r)⟩ := by
  rcases spans with _ | ⟨k, _ | ⟨a, _ | ⟨r, rest⟩⟩⟩
  · rw [processRow_short _ (by simp)] at h; cases h
  · rw [processRow_short _ (by simp)] at h; cases h
  · rw [processRow_short _ (by simp)] at h; cases h
  · unfold processRow at h
    rw [if_neg (by simp)] at h
    dsimp only at h
    split at h
    · cases h
    · rename_i hk
      cases h
      exact ⟨k, a, r, rest, rfl, hk, rfl⟩

lemma processRow_empty_keyword (k a r : String) (rest : List String)
    (hk : pyStrip k = "") : processRow (k :: a :: r :: rest) = none := by
  unfold processRow
  simp [hk]

/-- C3: the extractor excludes any row with fewer than 3 text-bearing spans
and any row whose first field strips to empty (so no emitted record has an
empty keyword), processes rows in page order (it is a homomorphism for list
concatenation, so the output preserves the input row order), and returns the
empty list — not an error — when no rows match the selector. -/
theorem C3_extractor_filters_and_order :
    scrape_keyword_data [] = [] ∧
    (∀ (r1 r2 : List (Option (List String))),
      scrape_keyword_data (r1 ++ r2) = scrape_keyword_data r1 ++ scrape_keyword_data r2) ∧
    (∀ spans : List String, spans.length < 3 → processRow spans = none) ∧
    (∀ (k a r : String) (rest : List String), pyStrip k = "" →
      processRow (k :: a :: r :: rest) = none) ∧
    (∀ rows rec, rec ∈ scrape_keyword_data rows → rec.keyword ≠ "") := by
  refine ⟨rfl, ?_, processRow_short, processRow_empty_keyword, ?_⟩
  · intro r1 r2
    simp [scrape_keyword_data, List.filterMap_append]
  · intro rows rec hrec
    simp only [scrape_keyword_data, List.mem_filterMap] at hrec
    obtain ⟨row, _, hbind⟩ := hrec
    rcases row with _ | spans
    · cases hbind
    · obtain ⟨k, a, r, rest, _, hk, hrec_eq⟩ := processRow_inv spans rec hbind
      rw [hrec_eq]
      exact hk

/-- Witness for C3: a two-span row is excluded; a record extracted from a
well-formed row has a non-empty keyword. -/
theorem C3_extractor_filters_and_order_witness :
    processRow ["Python", "1.2k"] = none ∧
    (⟨"Python", 1200, 3⟩ : KeywordRecord).keyword ≠ "" :=
  ⟨C3_extractor_filters_and_order.2.2.1 ["Python", "1.2k"] (by decide),
   C3_extractor_filters_and_order.2.2.2.2 [some ["Python", "1.2k", "#3"]] ⟨"Python", 1200, 3⟩
     (by decide)⟩

/-! ## The truncation bridge: `truncScaled` is truncation toward zero -/

lemma truncScaled_eq_trunc (m : Int) (e : Nat) :
    truncScaled m e =
      if 0 ≤ m then ⌊(m : ℚ) / ((10 : ℚ) ^ e)⌋ else ⌈(m : ℚ) / ((10 : ℚ) ^ e)⌉ := by
  have hcast : ((10 : ℚ) ^ e) = (((10 ^ e : ℕ) : ℚ)) := by push_cast; ring
  have hfloor : ∀ n : Int, ⌊(n : ℚ) / ((10 : ℚ) ^ e)⌋ = n / ((10 ^ e : ℕ) : Int) := by
    intro n
    rw [hcast, Rat.floor_intCast_div_natCast]
  by_cases hm : 0 ≤ m
  · rw [if_pos hm]
    rw [hfloor]
    unfold truncScaled
    rw [Int.tdiv_eq_ediv hm (by positivity)]
    norm_cast
  · rw [if_neg hm]
    have h1 : ((m : ℚ) / ((10 : ℚ) ^ e)) = -(((-m : Int) : ℚ) / ((10 : ℚ) ^ e)) := by
      push_cast; ring
    rw [h1, Int.ceil_neg, hfloor]
    unfold truncScaled
    have h2 : m.tdiv ((10 : Int) ^ e) = -((-m).tdiv ((10 : Int) ^ e)) := by
      rw [Int.neg_tdiv, neg_neg]
    rw [h2, Int.tdiv_eq_ediv (by omega) (by positivity)]
    norm_cast

/-- C2 as stated is false of the code: Python float arithmetic rounds the
decimal literal to binary64 before truncating, so
`clean_appearances "2.9999999999999999"` returns 3 (the literal rounds to
exactly 3.0) while the truncated value of the decimal the text denotes,
`29999999999999999 / 10 ^ 16`, is 2. -/
theorem C2_counterexample_binary64_rounding :
    clean_appearances "2.9999999999999999" = 3 ∧
    truncScaled 29999999999999999 16 = 2 := by decide

/-- C2 amended: `clean_appearances` follows Python float semantics, not exact
decimal truncation: write `t` for the stripped, lower-cased text. If `t` has
no `'k'` marker, the result is the binary64 value the literal `t` rounds to,
truncated toward zero (0 when `t` is unparsable or non-finite). If `t`
contains `'k'`, the marker is removed, the literal is rounded to binary64,
multiplied by 1000 with IEEE re-rounding, and truncated (0 on parse failure
or overflow). The spec's examples hold, and on the inputs where binary64
rounding departs from exact decimal truncation the code follows binary64:
"2.9999999999999999" gives 3 (not 2) and "8.165k" gives 8164 (not 8165);
scientific notation is accepted ("1e3" gives 1000). The function is total,
so no exception reaches the caller. -/
theorem C2_normalize_count_amended (s : String) :
    (containsChar (pyLower (pyStrip s)) 'k' = false →
      ((∀ neg M k, pyFloat (pyLower (pyStrip s)) = some (neg, M, k) →
          clean_appearances s = truncF64 neg M k) ∧
        (pyFloat (pyLower (pyStrip s)) = none → clean_appearances s = 0))) ∧
    (containsChar (pyLower (pyStrip s)) 'k' = true →
      ((∀ neg M k, pyFloat (removeAll (pyLower (pyStrip s)) 'k') = some (neg, M, k) →
          clean_appearances s =
            (match mul1000Round M k with
            | some (M2, k2) => truncF64 neg M2 k2
            | none => 0)) ∧
        (pyFloat (removeAll (pyLower (pyStrip s)) 'k') = none →
          clean_appearances s = 0))) ∧
    clean_appearances "5" = 5 ∧ clean_appearances "12.0" = 12 ∧
    clean_appearances "1.2k" = 1200 ∧ clean_appearances "n/a" = 0 ∧
    clean_appearances "2.9999999999999999" = 3 ∧ clean_appearances "8.165k" = 8164 ∧
    clean_appearances "1e3" = 1000 := by
  refine ⟨?_, ?_, by decide, by decide, by decide, by decide, by decide, by decide, by decide⟩
  · intro hk
    constructor
    · intro neg M k hp
      simp [clean_appearances, hk, hp]
    · intro hp
      simp [clean_appearances, hk, hp]
  · intro hk
    constructor
    · intro neg M k hp
      simp [clean_appearances, hk, hp]
    · intro hp
      simp [clean_appearances, hk, hp]

/-- Witness for the amended C2 at "7", whose binary64 value is
`7881299347898368 * 2 ^ (-50)`. -/
theorem C2_normalize_count_amended_witness :
    clean_appearances "7" = truncF64 false 7881299347898368 (-50) :=
  ((C2_normalize_count_amended "7").1 (by decide)).1 false 7881299347898368 (-50) (by decide)

/-! ## Sign analysis of the normalizers -/

lemma filter_ne_of_not_mem (l : List Char) (c : Char) (h : c ∉ l) :
    l.filter (fun x => decide (x ≠ c)) = l := by
  induction l with
  | nil => rfl
  | cons a as ih =>
    have ha : a ≠ c := fun he => h (he ▸ List.mem_cons_self a as)
    rw [List.filter_cons, if_pos (by simpa using ha),
      ih (fun hc => h (List.mem_cons_of_mem a hc))]

lemma clean_rank_eq_leading (s : String) (h : '#' ∉ (pyStrip s).data.drop 1) :
    clean_rank s = clean_rank_leading s := by
  unfold clean_rank clean_rank_leading removeAll
  dsimp only
  cases hd : (pyStrip s).data with
  | nil => rfl
  | cons c rest =>
    rw [hd] at h
    rw [List.drop_succ_cons, List.drop_zero] at h
    dsimp only
    rw [List.filter_cons]
    by_cases hc : c = '#'
    · subst hc
      rw [if_neg (by simp), filter_ne_of_not_mem rest '#' h, if_pos rfl]
    · rw [if_pos (by simpa using hc), filter_ne_of_not_mem rest '#' h, if_neg hc]

/-- C5 as stated is false: `clean_rank` does not strip only a LEADING `'#'`;
it removes every `'#'`, so "##1" normalizes to 1 while a leading-strip parse
of "##1" fails and would give 0. -/
theorem C5_counterexample_double_hash :
    clean_rank "##1" = 1 ∧ clean_rank_leading "##1" = 0 := by decide

/-- C5 amended: `clean_rank` trims whitespace, removes EVERY `'#'` character
(not only a leading one), and parses the remainder as an integer, with 0 on
any parse failure.  It agrees with the spec's leading-strip reading whenever
`'#'` occurs at most as the first character of the stripped text, and the
spec's examples hold: "#1" → 1, "42" → 42, "#" alone → 0, "" → 0. -/
theorem C5_normalize_rank_amended (s : String) (h : '#' ∉ (pyStrip s).data.drop 1) :
    clean_rank s = clean_rank_leading s ∧
    clean_rank "#1" = 1 ∧ clean_rank "42" = 42 ∧
    clean_rank "#" = 0 ∧ clean_rank "" = 0 :=
  ⟨clean_rank_eq_leading s h, by decide, by decide, by decide, by decide⟩

/-- Witness for the amended C5 at "#1". -/
theorem C5_normalize_rank_amended_witness :
    clean_rank "#1" = clean_rank_leading "#1" :=
  (C5_normalize_rank_amended "#1" (by decide)).1

/-! ## Lemmas about the publisher and the orchestrator -/

lemma sync_success_iff (spreadsheetId today : String) (env : SheetsEnv)
    (keywords_data : List KeywordRecord) :
    (sync_to_google_sheets spreadsheetId today env keywords_data).success = true ↔
      (spreadsheetId ≠ "" ∧ keywords_data ≠ [] ∧ env.credentials = .ok () ∧
        (∃ ns, env.metadata = .ok ns ∧ SHEET_NAME ∈ ns) ∧
        (∃ n, env.appendResult = .ok n)) := by
  unfold sync_to_google_sheets syncBody
  by_cases h1 : spreadsheetId = ""
  · simp [h1]
  · rw [if_neg h1]
    by_cases h2 : keywords_data = []
    · simp [h1, h2]
    · rw [if_neg h2]
      cases hc : env.credentials with
      | error e => cases e; simp [h1, h2, hc]
      | ok u =>
        cases u
        cases hm : env.metadata with
        | error e => cases e; simp [h1, h2, hc, hm]
        | ok ns =>
          dsimp only
          by_cases hs : SHEET_NAME ∈ ns
          · rw [if_pos hs]
            cases ha : env.appendResult with
            | error e => cases e; simp [h1, h2, hc, hm, ha, hs]
            | ok n => simp [h1, h2, hc, hm, ha, hs]
          · rw [if_neg hs]
            simp [h1, h2, hc, hm, hs]

lemma sync_rowsSent (spreadsheetId today : String) (env : SheetsEnv)
    (keywords_data : List KeywordRecord) :
    (sync_to_google_sheets spreadsheetId today env keywords_data).rowsSent = none ∨
    (sync_to_google_sheets spreadsheetId today env keywords_data).rowsSent =
      some (keywords_data.map (buildRow today)) := by
  unfold sync_to_google_sheets syncBody
  by_cases h1 : spreadsheetId = ""
  · rw [if_pos h1]; left; rfl
  · rw [if_neg h1]
    by_cases h2 : keywords_data = []
    · rw [if_pos h2]; left; rfl
    · rw [if_neg h2]
      cases hc : env.credentials with
      | error e => left; rfl
      | ok u =>
        cases hm : env.metadata with
        | error e => left; rfl
        | ok ns =>
          dsimp only
          by_cases hs : SHEET_NAME ∈ ns
          · rw [if_pos hs]
            cases ha : env.appendResult with
            | error e => right; rfl
            | ok n => right; rfl
          · rw [if_neg hs]; left; rfl

/-- C7: whenever `sync_to_google_sheets` reaches the batch-append step (some
row payload was sent), that payload is exactly one row
`[date, keyword, appearances, rank]` per input record in record order: it
equals the map of `buildRow` over the records, its length equals the number
of records, and every row's first column is the run's date. -/
theorem C7_publish_builds_one_row_per_record (spreadsheetId today : String)
    (env : SheetsEnv) (keywords_data : List KeywordRecord) (rows : List (List Cell))
    (h : (sync_to_google_sheets spreadsheetId today env keywords_data).rowsSent = some rows) :
    rows = keywords_data.map (buildRow today) ∧
    rows.length = keywords_data.length ∧
    (∀ row ∈ rows, row.head? = some (Cell.str today)) := by
  rcases sync_rowsSent spreadsheetId today env keywords_data with hn | hsome
  · rw [hn] at h; cases h
  · rw [hsome] at h
    obtain rfl : keywords_data.map (buildRow today) = rows := Option.some.inj h
    refine ⟨rfl, by simp, ?_⟩
    intro row hrow
    obtain ⟨item, -, rfl⟩ := List.mem_map.mp hrow
    rfl

/-- Witness for C7 on a one-record batch with every collaborator succeeding. -/
theorem C7_publish_builds_one_row_per_record_witness :
    [[Cell.str "2024-01-01", Cell.str "a", Cell.int 1, Cell.int 2]] =
      [(⟨"a", 1, 2⟩ : KeywordRecord)].map (buildRow "2024-01-01") ∧
    ([[Cell.str "2024-01-01", Cell.str "a", Cell.int 1, Cell.int 2]] : List (List Cell)).length =
      [(⟨"a", 1, 2⟩ : KeywordRecord)].length ∧
    (∀ row ∈ [[Cell.str "2024-01-01", Cell.str "a", Cell.int 1, Cell.int 2]],
      row.head? = some (Cell.str "2024-01-01")) :=
  C7_publish_builds_one_row_per_record "sid" "2024-01-01" ⟨.ok (), .ok ["Raw_Data"], .ok 1⟩
    [⟨"a", 1, 2⟩] [[Cell.str "2024-01-01", Cell.str "a", Cell.int 1, Cell.int 2]] (by decide)

/-- C8: `sync_to_google_sheets` fails fast: with an unset destination
identifier or an empty record list it returns failure having attempted no
credential load, no metadata fetch and no append. -/
theorem C8_fail_fast (spreadsheetId today : String) (env : SheetsEnv)
    (keywords_data : List KeywordRecord)
    (h : spreadsheetId = "" ∨ keywords_data = []) :
    sync_to_google_sheets spreadsheetId today env keywords_data =
      ⟨false, false, false, false, none⟩ := by
  unfold sync_to_google_sheets syncBody
  rcases h with h | h
  · rw [if_pos h]
  · by_cases h1 : spreadsheetId = ""
    · rw [if_pos h1]
    · rw [if_neg h1, if_pos h]

/-- Witness for C8 with an unset destination identifier. -/
theorem C8_fail_fast_witness :
    sync_to_google_sheets "" "2024-01-01" ⟨.ok (), .ok ["Raw_Data"], .ok 1⟩ [⟨"a", 1, 2⟩] =
      ⟨false, false, false, false, none⟩ :=
  C8_fail_fast "" "2024-01-01" ⟨.ok (), .ok ["Raw_Data"], .ok 1⟩ [⟨"a", 1, 2⟩] (Or.inl rfl)

/-- C10: `sync_to_google_sheets` is total over every behaviour of its
collaborators — each call returns a `SyncResult` (no exception escapes: the
body's only propagating raise, the credential load, is caught by the outer
handler) — and its boolean is `true` exactly when the identifier is set, the
records are non-empty, and credential load, metadata fetch (with the target
tab present) and batch append all succeed; every other path returns `false`. -/
theorem C10_publish_total_boolean (spreadsheetId today : String) (env : SheetsEnv)
    (keywords_data : List KeywordRecord) :
    (sync_to_google_sheets spreadsheetId today env keywords_data).success = true ↔
      (spreadsheetId ≠ "" ∧ keywords_data ≠ [] ∧ env.credentials = .ok () ∧
        (∃ ns, env.metadata = .ok ns ∧ SHEET_NAME ∈ ns) ∧
        (∃ n, env.appendResult = .ok n)) :=
  sync_success_iff spreadsheetId today env keywords_data

/-- Witness for C10: a raising credential load yields `false` (not an
exception), and an all-successful run yields `true`. -/
theorem C10_publish_total_boolean_witness :
    (sync_to_google_sheets "sid" "2024-01-01" ⟨.ok (), .ok ["Raw_Data"], .ok 1⟩
      [⟨"a", 1, 2⟩]).success = true :=
  (C10_publish_total_boolean "sid" "2024-01-01" ⟨.ok (), .ok ["Raw_Data"], .ok 1⟩
    [⟨"a", 1, 2⟩]).mpr
    ⟨by decide, by decide, rfl, ⟨["Raw_Data"], rfl, by decide⟩, ⟨1, rfl⟩⟩

/-- C9: the process exit status is 0 exactly when the browser phase completes
and the publish of the (necessarily non-empty) extracted batch succeeds, and
1 otherwise; in particular an extraction yielding zero usable records is not
aborted early but leads to a failing publish on empty input and exit 1. -/
theorem C9_exit_status (browser : Except Unit (Nat × List (Option (List String))))
    (spreadsheetId today : String) (env : SheetsEnv) :
    (mainRun browser spreadsheetId today env = 0 ∨ mainRun browser spreadsheetId today env = 1) ∧
    (mainRun browser spreadsheetId today env = 0 ↔
      ∃ ec rows, browser = .ok (ec, rows) ∧
        (sync_to_google_sheets spreadsheetId today env (scrape_keyword_data rows)).success = true ∧
        scrape_keyword_data rows ≠ []) ∧
    (∀ ec rows, browser = .ok (ec, rows) → scrape_keyword_data rows = [] →
      mainRun browser spreadsheetId today env = 1) := by
  cases browser with
  | error e =>
    refine ⟨Or.inr rfl, ?_, ?_⟩
    · constructor
      · intro h; exact absurd h Nat.one_ne_zero
      · rintro ⟨ec, rows, heq, -⟩; cases heq
    · intro ec rows heq; cases heq
  | ok pr =>
    obtain ⟨ec0, rows0⟩ := pr
    by_cases hs : (sync_to_google_sheets spreadsheetId today env
        (scrape_keyword_data rows0)).success = true
    · have hm : mainRun (.ok (ec0, rows0)) spreadsheetId today env = 0 := by
        simp [mainRun, hs]
      have hne : scrape_keyword_data rows0 ≠ [] := by
        intro hnil
        exact ((sync_success_iff spreadsheetId today env
          (scrape_keyword_data rows0)).mp hs).2.1 hnil
      refine ⟨Or.inl hm, ?_, ?_⟩
      · constructor
        · intro _; exact ⟨ec0, rows0, rfl, hs, hne⟩
        · intro _; exact hm
      · intro ec rows heq hnil
        injection heq with heq'
        obtain ⟨-, h2⟩ := Prod.mk.inj heq'
        exact absurd (h2 ▸ hnil) hne
    · have hm : mainRun (.ok (ec0, rows0)) spreadsheetId today env = 1 := by
        simp [mainRun, hs]
      refine ⟨Or.inr hm, ?_, ?_⟩
      · constructor
        · intro h0; exact absurd (hm.symm.trans h0) (by decide)
        · rintro ⟨ec, rows, heq, hsucc, -⟩
          injection heq with heq'
          obtain ⟨-, h2⟩ := Prod.mk.inj heq'
          rw [← h2] at hsucc
          exact absurd hsucc hs
      · intro ec rows heq hnil
        exact hm

/-- Witness for C9: a run whose page has no extractable rows exits 1. -/
theorem C9_exit_status_witness :
    mainRun (.ok (0, [])) "sid" "2024-01-01" ⟨.ok (), .ok ["Raw_Data"], .ok 1⟩ = 1 :=
  (C9_exit_status (.ok (0, [])) "sid" "2024-01-01" ⟨.ok (), .ok ["Raw_Data"], .ok 1⟩).2.2
    0 [] rfl rfl
